import Mathlib

/-!
# The fio splice engine (`engines/splice.c`)

A shallow embedding of the splice I/O engine: the two pipe-staged read paths,
the pipe-staged write path, and the dispatch / completion mapping of
`fio_spliceio_queue`.

The kernel is a script: every system call issued by the engine consumes the
next scripted outcome.  When the script is exhausted the call does not return
(it is still blocked in the kernel), and the run stops there with no return
value.  Every run records the system calls it issued, in order, together with
the outcome each one received.

Kernel answers are counts as the kernel returns them; a count is at most what
the call asked for, which the engine keeps within an `int`.

Integers: `io_u->xfer_buflen` is an unsigned length of any size.  Wherever the
source narrows it to an `int` (the copies into `int buflen` on lines 38 and
83, the `int` return values on lines 66, 120 and 159, and the cast on
line 196) the model applies `to_int`, the conversion to a 32-bit two's
complement `int`.  The other `int` locals are mathematical integers: with a
length that fits an `int` and a kernel that never reports more bytes than it
was asked for they stay within `0 .. xfer_buflen`, so no arithmetic wraps.
`io_u->resid` is kept as the mathematical value of `xfer_buflen - ret`.
-/

namespace Splice

/-! ## Constants -/

/-- Linux `errno` value "no data available". -/
def ENODATA : Nat := 61

/-- Linux `errno` value "try again". -/
def EAGAIN : Nat := 11

/-- Linux `errno` value "bad file descriptor". -/
def EBADF : Nat := 9

/-- Modelled from the spec: the per-call chunk ceiling `SPLICE_DEF_SIZE`, whose
`#define` lives in `fio.h`; the spec gives it as 64 KiB. -/
def SPLICE_DEF_SIZE : Int := 65536

/-- Flag bits of `splice(2)` / `vmsplice(2)`. -/
def SPLICE_F_MOVE : Nat := 1

def SPLICE_F_NONBLOCK : Nat := 2

def SPLICE_F_MORE : Nat := 4

/-- Event bit of `poll(2)`. -/
def POLLOUT : Nat := 4

/-- Modelled from the spec: the completion code returned by a synchronous
engine ("completion is always reported synchronously"); its `#define` lives in
`fio.h`. -/
def FIO_Q_COMPLETED : Int := 0

/-- The conversion of an unsigned length to a C `int` (32 bits, two's
complement): the value modulo `2^32`, read as negative from `2^31` on. -/
def to_int (n : Nat) : Int :=
  if n % 4294967296 < 2147483648 then ((n % 4294967296 : Nat) : Int)
  else ((n % 4294967296 : Nat) : Int) - 4294967296

/-! ## Data model -/

/-- Modelled from the spec: the direction of a request (read / write / sync);
the `enum` lives in `fio.h`. -/
inductive fio_ddir where
  | DDIR_READ
  | DDIR_WRITE
  | DDIR_SYNC
deriving DecidableEq, Repr

/-- The functions that can be installed in `io_u->unmap`. -/
inductive unmap_fn where
  | splice_unmap_io_u
deriving DecidableEq, Repr

/-- Modelled from the spec: the fields of `struct io_u` (declared in `fio.h`)
that the engine touches.  Pointers are addresses, `0` is `NULL`; `fd` stands
for `io_u->file->fd`; `unmap = none` is a null function pointer. -/
structure io_u where
  ddir : fio_ddir
  fd : Int
  offset : Int
  xfer_buf : Int
  xfer_buflen : Nat
  resid : Int
  error : Nat
  unmap : Option unmap_fn
deriving DecidableEq, Repr

/-- The engine instance state, `struct spliceio_data` (`pipe0` is the read
end `pipe[0]`, `pipe1` the write end `pipe[1]`). -/
structure spliceio_data where
  pipe0 : Int
  pipe1 : Int
  vmsplice_to_user : Int
deriving DecidableEq, Repr

/-! ## The kernel boundary -/

/-- A system call as issued by the engine, with its arguments.  The offset
argument of `splice` is `none` for a `NULL` pointer. -/
inductive Syscall where
  | splice (fd_in : Int) (off_in : Option Int) (fd_out : Int) (off_out : Option Int)
      (len : Int) (flags : Nat)
  | vmsplice (fd : Int) (iov_base : Int) (iov_len : Int) (flags : Nat)
  | read (fd : Int) (buf : Int) (count : Int)
  | poll (fd : Int) (events : Nat) (timeout : Int)
  | fsync (fd : Int)
deriving DecidableEq, Repr

/-- What the kernel answers: success with a count, or failure with an
error code (the call then returns `-1` and stores the code in `errno`). -/
inductive Outcome where
  | ok (n : Nat)
  | fail (e : Nat)
deriving DecidableEq, Repr

/-- The value the system call returns. -/
def Outcome.ret : Outcome → Int
  | .ok n => (n : Int)
  | .fail _ => -1

/-- The value of `errno` after the call, given its value before. -/
def Outcome.errno : Outcome → Nat → Nat
  | .ok _, old => old
  | .fail e, _ => e

/-- One entry of the system-call record: the call and the outcome it got
(`none` while the call has not returned). -/
structure Event where
  call : Syscall
  res : Option Outcome
deriving DecidableEq, Repr

/-- The state in which one of the low-level paths stops: the value it
returned (`none` when it is still blocked in a system call), the request,
`errno`, the calls issued and the part of the script not consumed. -/
structure PathRun where
  ret : Option Int
  u : io_u
  errno : Nat
  trace : List Event
  rest : List Outcome
deriving DecidableEq, Repr

/-- Put an earlier event in front of the record of a run. -/
def PathRun.after (ev : Event) (r : PathRun) : PathRun :=
  { r with trace := ev :: r.trace }

/-- Put the record of an earlier run in front of the record of a run. -/
def PathRun.afterAll (evs : List Event) (r : PathRun) : PathRun :=
  { r with trace := evs ++ r.trace }

/-! ## `fio_splice_read_old` (lines 29-67) -/

/-- The locals of `fio_splice_read_old`.  `ret` is the count still to be
drained by the inner `while (ret)` loop; it is `0` whenever control is at the
head of the outer `while (buflen)` loop. -/
structure old_vars where
  offset : Int
  buflen : Int
  p : Int
  ret : Int
deriving DecidableEq, Repr

/-- The two nested loops of `fio_splice_read_old` (lines 40-64), one system
call per step: while `ret` is non-zero the inner loop issues `read`
(lines 56-63); otherwise the outer loop head tests `buflen` and issues
`splice` (lines 40-54); with both zero the function returns `xfer_buflen`
as an `int` (line 66). -/
def fio_splice_read_old_loop (sd : spliceio_data) (u : io_u) :
    List Outcome → Nat → old_vars → PathRun
  | [], errno, v =>
    if v.ret ≠ 0 then
      ⟨none, u, errno, [⟨.read sd.pipe0 v.p v.ret, none⟩], []⟩
    else if v.buflen ≠ 0 then
      let this_len := if v.buflen > SPLICE_DEF_SIZE then SPLICE_DEF_SIZE else v.buflen
      ⟨none, u, errno,
        [⟨.splice u.fd (some v.offset) sd.pipe1 none this_len SPLICE_F_MORE, none⟩], []⟩
    else
      ⟨some (to_int u.xfer_buflen), u, errno, [], []⟩
  | r :: rs, errno, v =>
    if v.ret ≠ 0 then
      -- line 57: ret2 = read(sd->pipe[0], p, ret)
      let ev : Event := ⟨.read sd.pipe0 v.p v.ret, some r⟩
      let ret2 := r.ret
      let errno := r.errno errno
      if ret2 < 0 then
        ⟨some (-(errno : Int)), u, errno, [ev], rs⟩
      else
        (fio_splice_read_old_loop sd u rs errno
          { v with ret := v.ret - ret2, p := v.p + ret2 }).after ev
    else if v.buflen ≠ 0 then
      -- lines 41-46
      let this_len := if v.buflen > SPLICE_DEF_SIZE then SPLICE_DEF_SIZE else v.buflen
      let ev : Event :=
        ⟨.splice u.fd (some v.offset) sd.pipe1 none this_len SPLICE_F_MORE, some r⟩
      let ret := r.ret
      let errno := r.errno errno
      if ret < 0 then
        if errno = ENODATA ∨ errno = EAGAIN then
          (fio_splice_read_old_loop sd u rs errno v).after ev
        else
          ⟨some (-(errno : Int)), u, errno, [ev], rs⟩
      else
        (fio_splice_read_old_loop sd u rs errno
          { v with offset := v.offset + ret, buflen := v.buflen - ret, ret := ret }).after ev
    else
      ⟨some (to_int u.xfer_buflen), u, errno, [], r :: rs⟩

/-- The copying read path, `fio_splice_read_old`: line 38 copies the length
into `int buflen`. -/
def fio_splice_read_old (sd : spliceio_data) (u : io_u) (errno : Nat)
    (rs : List Outcome) : PathRun :=
  fio_splice_read_old_loop sd u rs errno ⟨u.offset, to_int u.xfer_buflen, u.xfer_buf, 0⟩

/-! ## `fio_splice_read` (lines 73-121) -/

/-- The locals of `fio_splice_read`.  `iov_len` is `0` whenever control is at
the head of the outer `while (buflen)` loop (in C `iov` is uninitialised on
entry and lines 101-102 set it before it is read). -/
structure read_vars where
  offset : Int
  buflen : Int
  p : Int
  iov_base : Int
  iov_len : Int
deriving DecidableEq, Repr

/-- The two nested loops of `fio_splice_read` (lines 86-117), one system call
per step: while `iov_len` is non-zero the inner loop issues `vmsplice`
(lines 105-116); otherwise the outer loop head tests `buflen` and issues
`splice` (lines 86-103); with both zero the function tags the request and
returns `xfer_buflen` as an `int` (lines 119-120). -/
def fio_splice_read_loop (sd : spliceio_data) :
    List Outcome → io_u → Nat → read_vars → PathRun
  | [], u, errno, v =>
    if v.iov_len ≠ 0 then
      ⟨none, u, errno, [⟨.vmsplice sd.pipe0 v.iov_base v.iov_len SPLICE_F_MOVE, none⟩], []⟩
    else if v.buflen ≠ 0 then
      let this_len := if v.buflen > SPLICE_DEF_SIZE then SPLICE_DEF_SIZE else v.buflen
      ⟨none, u, errno,
        [⟨.splice u.fd (some v.offset) sd.pipe1 none this_len SPLICE_F_MORE, none⟩], []⟩
    else
      ⟨some (to_int u.xfer_buflen), { u with unmap := some .splice_unmap_io_u }, errno, [], []⟩
  | r :: rs, u, errno, v =>
    if v.iov_len ≠ 0 then
      -- line 106: ret = vmsplice(sd->pipe[0], &iov, 1, SPLICE_F_MOVE)
      let ev : Event := ⟨.vmsplice sd.pipe0 v.iov_base v.iov_len SPLICE_F_MOVE, some r⟩
      let ret := r.ret
      let errno := r.errno errno
      if ret < 0 then
        ⟨some (-(errno : Int)), u, errno, [ev], rs⟩
      else if ret = 0 then
        ⟨some (-(ENODATA : Int)), u, errno, [ev], rs⟩
      else
        let u := if u.xfer_buf = 0 then { u with xfer_buf := v.iov_base } else u
        (fio_splice_read_loop sd rs u errno
          { v with iov_len := v.iov_len - ret, iov_base := v.iov_base + ret }).after ev
    else if v.buflen ≠ 0 then
      -- lines 87-92
      let this_len := if v.buflen > SPLICE_DEF_SIZE then SPLICE_DEF_SIZE else v.buflen
      let ev : Event :=
        ⟨.splice u.fd (some v.offset) sd.pipe1 none this_len SPLICE_F_MORE, some r⟩
      let ret := r.ret
      let errno := r.errno errno
      if ret < 0 then
        if errno = ENODATA ∨ errno = EAGAIN then
          (fio_splice_read_loop sd rs u errno v).after ev
        else
          ⟨some (-(errno : Int)), u, errno, [ev], rs⟩
      else
        -- lines 100-103
        (fio_splice_read_loop sd rs u errno
          { offset := v.offset + ret, buflen := v.buflen - ret, p := v.p + ret,
            iov_base := v.p, iov_len := ret }).after ev
    else
      ⟨some (to_int u.xfer_buflen), { u with unmap := some .splice_unmap_io_u }, errno, [],
        r :: rs⟩

/-- The zero-copy read path, `fio_splice_read`: line 83 copies the length into
`int buflen`, line 85 clears `io_u->xfer_buf` before the loop starts. -/
def fio_splice_read (sd : spliceio_data) (u : io_u) (errno : Nat)
    (rs : List Outcome) : PathRun :=
  fio_splice_read_loop sd rs { u with xfer_buf := 0 } errno
    ⟨u.offset, to_int u.xfer_buflen, u.xfer_buf, 0, 0⟩

/-! ## `fio_splice_write` (lines 127-160) -/

/-- The locals of `fio_splice_write`.  `ret` is the count still to be moved
to the file by the inner `while (ret)` loop; it is `0` at the head of the
outer `while (iov.iov_len)` loop. -/
structure write_vars where
  iov_base : Int
  iov_len : Int
  off : Int
  ret : Int
deriving DecidableEq, Repr

/-- The two nested loops of `fio_splice_write` (lines 139-157): while `ret`
is non-zero the inner loop issues `splice` to the file (lines 150-156);
otherwise the outer loop head tests `iov_len` and issues `poll` followed by
`vmsplice` (lines 139-148); with both zero the function returns
`xfer_buflen` as an `int` (line 159). -/
def fio_splice_write_loop (sd : spliceio_data) (u : io_u) :
    List Outcome → Nat → write_vars → PathRun
  | [], errno, v =>
    if v.ret ≠ 0 then
      ⟨none, u, errno, [⟨.splice sd.pipe0 none u.fd (some v.off) v.ret 0, none⟩], []⟩
    else if v.iov_len ≠ 0 then
      ⟨none, u, errno, [⟨.poll sd.pipe1 POLLOUT (-1), none⟩], []⟩
    else
      ⟨some (to_int u.xfer_buflen), u, errno, [], []⟩
  | r :: rs, errno, v =>
    if v.ret ≠ 0 then
      -- line 151: ret2 = splice(sd->pipe[0], NULL, f->fd, &off, ret, 0)
      let ev : Event := ⟨.splice sd.pipe0 none u.fd (some v.off) v.ret 0, some r⟩
      let ret2 := r.ret
      let errno := r.errno errno
      if ret2 < 0 then
        ⟨some (-(errno : Int)), u, errno, [ev], rs⟩
      else
        (fio_splice_write_loop sd u rs errno
          { v with ret := v.ret - ret2, off := v.off + ret2 }).after ev
    else if v.iov_len ≠ 0 then
      -- line 140: if (poll(&pfd, 1, -1) < 0) return errno
      let evp : Event := ⟨.poll sd.pipe1 POLLOUT (-1), some r⟩
      let errno := r.errno errno
      if r.ret < 0 then
        ⟨some (errno : Int), u, errno, [evp], rs⟩
      else
        let callv := Syscall.vmsplice sd.pipe1 v.iov_base v.iov_len SPLICE_F_NONBLOCK
        match rs with
        | [] => ⟨none, u, errno, [evp, ⟨callv, none⟩], []⟩
        | r2 :: rs2 =>
          -- line 143: ret = vmsplice(sd->pipe[1], &iov, 1, SPLICE_F_NONBLOCK)
          let evv : Event := ⟨callv, some r2⟩
          let ret := r2.ret
          let errno := r2.errno errno
          if ret < 0 then
            ⟨some (-(errno : Int)), u, errno, [evp, evv], rs2⟩
          else
            ((fio_splice_write_loop sd u rs2 errno
              { v with iov_len := v.iov_len - ret, iov_base := v.iov_base + ret,
                       ret := ret }).after evv).after evp
    else
      ⟨some (to_int u.xfer_buflen), u, errno, [], r :: rs⟩

/-- The write path, `fio_splice_write`: `iov.iov_len` is a `size_t` and takes
the length as it is (line 132); only the return value is an `int`. -/
def fio_splice_write (sd : spliceio_data) (u : io_u) (errno : Nat)
    (rs : List Outcome) : PathRun :=
  fio_splice_write_loop sd u rs errno ⟨u.xfer_buf, (u.xfer_buflen : Int), u.offset, 0⟩

/-! ## `fio_spliceio_queue` (lines 173-209) -/

/-- The sync branch, line 194: `ret = fsync(io_u->file->fd)`. -/
def do_fsync (u : io_u) (errno : Nat) : List Outcome → PathRun
  | [] => ⟨none, u, errno, [⟨.fsync u.fd, none⟩], []⟩
  | r :: rs => ⟨some r.ret, u, r.errno errno, [⟨.fsync u.fd, some r⟩], rs⟩

/-- The dispatch of `fio_spliceio_queue`, lines 178-194: the low-level run
that produced `ret`, and the instance state after it. -/
def dispatch (sd : spliceio_data) (u : io_u) (errno : Nat) (rs : List Outcome) :
    PathRun × spliceio_data :=
  match u.ddir with
  | .DDIR_READ =>
    if sd.vmsplice_to_user ≠ 0 then
      -- line 180
      let r1 := fio_splice_read sd u errno rs
      match r1.ret with
      | none => (r1, sd)
      | some ret =>
        -- lines 186-187
        let sd1 := if ret = -(EBADF : Int) then { sd with vmsplice_to_user := 0 } else sd
        -- lines 189-190
        if sd1.vmsplice_to_user = 0 then
          ((fio_splice_read_old sd1 r1.u r1.errno r1.rest).afterAll r1.trace, sd1)
        else
          (r1, sd1)
    else
      -- lines 189-190, reached with the flag already clear
      (fio_splice_read_old sd u errno rs, sd)
  | .DDIR_WRITE => (fio_splice_write sd u errno rs, sd)
  | .DDIR_SYNC => (do_fsync u errno rs, sd)

/-- The state in which `fio_spliceio_queue` stops.  `completion` is the
value returned to the host (`none` while the call is blocked); `ret` is the
local `ret`, the result of the low-level path; `verror` is the pair handed to
`td_verror` on line 206, when that line runs. -/
structure QueueRun where
  completion : Option Int
  ret : Option Int
  u : io_u
  sd : spliceio_data
  errno : Nat
  verror : Option (Nat × String)
  trace : List Event
  rest : List Outcome
deriving DecidableEq, Repr

/-- Lines 205-208: report a recorded error, then return. -/
def finish (sd : spliceio_data) (r : PathRun) (ret : Int) (u : io_u) : QueueRun :=
  { completion := some FIO_Q_COMPLETED, ret := some ret, u := u, sd := sd,
    errno := r.errno,
    verror := if u.error ≠ 0 then some (u.error, "xfer") else none,
    trace := r.trace, rest := r.rest }

/-- The completion mapping of `fio_spliceio_queue`, lines 196-208; line 196
compares `ret` with `(int) io_u->xfer_buflen`. -/
def complete (sd : spliceio_data) (r : PathRun) : QueueRun :=
  match r.ret with
  | none =>
    { completion := none, ret := none, u := r.u, sd := sd, errno := r.errno,
      verror := none, trace := r.trace, rest := r.rest }
  | some ret =>
    if ret ≠ to_int r.u.xfer_buflen then
      if ret ≥ 0 then
        -- lines 198-200
        { completion := some FIO_Q_COMPLETED, ret := some ret,
          u := { r.u with resid := (r.u.xfer_buflen : Int) - ret, error := 0 },
          sd := sd, errno := r.errno, verror := none, trace := r.trace, rest := r.rest }
      else
        -- line 202
        finish sd r ret { r.u with error := r.errno }
    else
      finish sd r ret r.u

/-- The submit operation, `fio_spliceio_queue`. -/
def fio_spliceio_queue (sd : spliceio_data) (u : io_u) (errno : Nat)
    (rs : List Outcome) : QueueRun :=
  complete (dispatch sd u errno rs).2 (dispatch sd u errno rs).1

/-- A sequence of submits on one instance: each request is queued in the
state the previous one left (instance, `errno`, rest of the script); a submit
that blocks ends the sequence.  The list holds the run of each submit. -/
def submit_seq : spliceio_data → Nat → List Outcome → List io_u → List QueueRun
  | _, _, _, [] => []
  | sd, errno, rs, u :: us =>
    let q := fio_spliceio_queue sd u errno rs
    match q.completion with
    | none => [q]
    | some _ => q :: submit_seq q.sd q.errno q.rest us

/-! ## Observations on the system-call record -/

/-- A response to a file-to-pipe `splice` after which the read loops simply
ask again: one of the two retried error codes (lines 48 and 94), or a count
of zero. -/
def transient (r : Outcome) : Prop :=
  r = .fail EAGAIN ∨ r = .fail ENODATA ∨ r = .ok 0

/-- The count an outcome reports: the bytes moved on success, nothing on
failure or while the call has not returned. -/
def moved : Option Outcome → Int
  | some (.ok k) => (k : Int)
  | _ => 0

/-- A well-behaved kernel answer: a `splice` or `vmsplice` that moves at
least one byte and no more than it was asked for. -/
def Event.well_behaved : Event → Bool
  | ⟨.splice _ _ _ _ len _, some (.ok k)⟩ => decide (1 ≤ k ∧ (k : Int) ≤ len)
  | ⟨.vmsplice _ _ iov_len _, some (.ok m)⟩ => decide (1 ≤ m ∧ (m : Int) ≤ iov_len)
  | _ => false

/-- The segments handed to `vmsplice`, call by call: `(iov_base, iov_len)`. -/
def passed : List Event → List (Int × Int)
  | [] => []
  | ⟨.vmsplice _ base len _, _⟩ :: evs => (base, len) :: passed evs
  | _ :: evs => passed evs

/-- The byte ranges the `vmsplice` calls accepted, call by call:
`(iov_base, count returned)`. -/
def accepted : List Event → List (Int × Int)
  | [] => []
  | ⟨.vmsplice _ base _ _, res⟩ :: evs => (base, moved res) :: accepted evs
  | _ :: evs => accepted evs

/-- The ranges `(base, len)` cover `[a, b)` exactly: each is non-empty and
starts where the previous one ended, the first at `a`, the last ending at
`b`. -/
def tiles : Int → List (Int × Int) → Int → Bool
  | a, [], b => decide (a = b)
  | a, (base, len) :: segs, b =>
    decide (base = a) && decide (0 < len) && tiles (a + len) segs b

/-- The bookkeeping of the remaining length over a record, starting from
`rem` bytes remaining: the remaining length is never negative, every
file-to-pipe `splice` asks for `min rem SPLICE_DEF_SIZE` bytes and lowers the
remaining length by the count it returns, and nothing remains at the end. -/
def splice_accounting : Int → List Event → Bool
  | rem, [] => decide (rem = 0)
  | rem, ⟨.splice _ _ _ _ len _, res⟩ :: evs =>
    decide (0 ≤ rem) && decide (len = min rem SPLICE_DEF_SIZE) &&
      splice_accounting (rem - moved res) evs
  | rem, _ :: evs => decide (0 ≤ rem) && splice_accounting rem evs

/-- The counts returned by the file-to-pipe `splice` calls of a record. -/
def splice_counts : List Event → List Int
  | [] => []
  | ⟨.splice _ _ _ _ _ _, res⟩ :: evs => moved res :: splice_counts evs
  | _ :: evs => splice_counts evs

/-- The base of the first segment a `vmsplice` call accepted bytes from. -/
def first_accepted : List Event → Option Int
  | [] => none
  | ⟨.vmsplice _ base _ _, some (.ok (_ + 1))⟩ :: _ => some base
  | _ :: evs => first_accepted evs

/-! ## Concrete requests used in the evaluations below -/

/-- An engine instance as `fio_spliceio_init` leaves it: capability flag set. -/
def sd_fresh : spliceio_data := ⟨3, 4, 1⟩

/-- An engine instance whose capability flag has been cleared. -/
def sd_incapable : spliceio_data := ⟨3, 4, 0⟩

/-- A fresh read request of `n` bytes into the buffer at address `4096`. -/
def read_req (n : Nat) : io_u := ⟨.DDIR_READ, 5, 0, 4096, n, 0, 0, none⟩

/-- A fresh write request of `n` bytes from the buffer at address `4096`. -/
def write_req (n : Nat) : io_u := ⟨.DDIR_WRITE, 5, 0, 4096, n, 0, 0, none⟩

/-- A fresh sync request. -/
def sync_req : io_u := ⟨.DDIR_SYNC, 5, 0, 4096, 0, 0, 0, none⟩

/-- A request that still carries error code `5` from an earlier use. -/
def with_stale_error (u : io_u) : io_u := { u with error := 5 }

/-- A request with its length replaced by `n`. -/
def with_length (u : io_u) (n : Nat) : io_u := { u with xfer_buflen := n }

/-- A request with a null buffer pointer. -/
def with_null_buffer (u : io_u) : io_u := { u with xfer_buf := 0 }

/-! ## Basic facts -/

theorem to_int_of_lt (n : Nat) (h : n < 2147483648) : to_int n = (n : Int) := by
  unfold to_int
  have h1 : n % 4294967296 = n := Nat.mod_eq_of_lt (by omega)
  rw [h1, if_pos h]

@[simp]
theorem to_int_zero : to_int 0 = 0 := by
  decide

@[simp]
theorem Outcome.ret_ok (n : Nat) : (Outcome.ok n).ret = (n : Int) := rfl
@[simp]
theorem Outcome.ret_fail (e : Nat) : (Outcome.fail e).ret = -1 := rfl
@[simp]
theorem Outcome.errno_ok (n old : Nat) : (Outcome.ok n).errno old = old := rfl
@[simp]
theorem Outcome.errno_fail (e old : Nat) : (Outcome.fail e).errno old = e := rfl
@[simp]
theorem natCast_not_neg (n : Nat) : ¬ ((n : Int) < 0) := by omega

/-! ## What the copying read and the write leave untouched -/

theorem old_loop_frame (sd : spliceio_data) (u : io_u) (rs : List Outcome) :
    ∀ (errno : Nat) (v : old_vars),
      (fio_splice_read_old_loop sd u rs errno v).u = u ∧
      ∀ ev ∈ (fio_splice_read_old_loop sd u rs errno v).trace, ∀ fd b l f,
        ev.call ≠ .vmsplice fd b l f := by
  induction rs with
  | nil => intro errno v; simp only [fio_splice_read_old_loop]; split_ifs <;> simp
  | cons r rs ih =>
    intro errno v
    cases r <;> simp only [fio_splice_read_old_loop, Outcome.ret_ok, Outcome.errno_ok,
      Outcome.ret_fail, Outcome.errno_fail, natCast_not_neg, if_false, Int.reduceNeg,
      Int.reduceLT, if_true] <;>
    split_ifs <;> simp [PathRun.after, (ih _ _).1] <;> exact (ih _ _).2

theorem write_loop_frame (sd : spliceio_data) (u : io_u) (k : Nat) :
    ∀ (rs : List Outcome), rs.length ≤ k → ∀ (errno : Nat) (v : write_vars),
      (fio_splice_write_loop sd u rs errno v).u = u ∧
      ∀ ev ∈ (fio_splice_write_loop sd u rs errno v).trace, ∀ fd b l f,
        ev.call = .vmsplice fd b l f → fd = sd.pipe1 ∧ f = SPLICE_F_NONBLOCK := by
  induction k with
  | zero =>
    intro rs hk errno v
    have : rs = [] := List.length_eq_zero.mp (Nat.le_zero.mp hk)
    subst this
    simp only [fio_splice_write_loop]; split_ifs <;> simp
  | succ k ih =>
    intro rs hk errno v
    match rs, hk with
    | [], _ => simp only [fio_splice_write_loop]; split_ifs <;> simp
    | .fail e :: rs, hk =>
      have h1 : rs.length ≤ k := by simpa using hk
      simp only [fio_splice_write_loop, Outcome.ret_fail, Outcome.errno_fail, Int.reduceNeg,
        Int.reduceLT, if_true]
      split_ifs <;> simp
    | .ok n :: rs, hk =>
      have h1 : rs.length ≤ k := by simpa using hk
      simp only [fio_splice_write_loop, Outcome.ret_ok, Outcome.errno_ok, natCast_not_neg,
        if_false]
      split_ifs
      · simp [PathRun.after, (ih rs h1 _ _).1]
        exact (ih rs h1 _ _).2
      · match rs, h1 with
        | [], _ =>
          simp
          intro fd b l f h _ _ h4
          exact ⟨h.symm, h4.symm⟩
        | .fail e :: rs2, h1 =>
          simp
          intro fd b l f h _ _ h4
          exact ⟨h.symm, h4.symm⟩
        | .ok m :: rs2, h1 =>
          have h2 : rs2.length ≤ k := by simp at h1; omega
          simp [PathRun.after, (ih rs2 h2 _ _).1]
          refine ⟨?_, (ih rs2 h2 _ _).2⟩
          intro fd b l f h _ _ h4
          exact ⟨h.symm, h4.symm⟩
      · simp

/-! ## The completion mapping -/

@[simp]
theorem complete_sd (sd : spliceio_data) (r : PathRun) : (complete sd r).sd = sd := by
  unfold complete finish; split <;> [rfl; split_ifs <;> rfl]

@[simp]
theorem complete_trace (sd : spliceio_data) (r : PathRun) :
    (complete sd r).trace = r.trace := by
  unfold complete finish; split <;> [rfl; split_ifs <;> rfl]

@[simp]
theorem complete_rest (sd : spliceio_data) (r : PathRun) :
    (complete sd r).rest = r.rest := by
  unfold complete finish; split <;> [rfl; split_ifs <;> rfl]

@[simp]
theorem complete_errno (sd : spliceio_data) (r : PathRun) :
    (complete sd r).errno = r.errno := by
  unfold complete finish; split <;> [rfl; split_ifs <;> rfl]

@[simp]
theorem complete_ret (sd : spliceio_data) (r : PathRun) :
    (complete sd r).ret = r.ret := by
  unfold complete finish; split <;> [simp [*]; split_ifs <;> simp [*]]

@[simp]
theorem complete_xfer_buf (sd : spliceio_data) (r : PathRun) :
    (complete sd r).u.xfer_buf = r.u.xfer_buf := by
  unfold complete finish; split <;> [rfl; split_ifs <;> rfl]

@[simp]
theorem complete_unmap (sd : spliceio_data) (r : PathRun) :
    (complete sd r).u.unmap = r.u.unmap := by
  unfold complete finish; split <;> [rfl; split_ifs <;> rfl]

theorem complete_completion (sd : spliceio_data) (r : PathRun) :
    (complete sd r).completion = r.ret.map (fun _ => FIO_Q_COMPLETED) := by
  unfold complete finish; split <;> [simp [*]; split_ifs <;> simp [*]]

/-! ## The capability flag (C5) -/

theorem queue_flag_clear (sd : spliceio_data) (h : sd.vmsplice_to_user = 0) (u : io_u)
    (errno : Nat) (rs : List Outcome) :
    (fio_spliceio_queue sd u errno rs).sd = sd ∧
    (∀ ev ∈ (fio_spliceio_queue sd u errno rs).trace, ∀ fd b l f,
        ev.call = .vmsplice fd b l f →
          u.ddir = .DDIR_WRITE ∧ fd = sd.pipe1 ∧ f = SPLICE_F_NONBLOCK) ∧
    (u.ddir = .DDIR_READ →
        fio_spliceio_queue sd u errno rs = complete sd (fio_splice_read_old sd u errno rs)) := by
  unfold fio_spliceio_queue dispatch
  cases hd : u.ddir
  · simp [h]
    intro ev hev fd b l f hc
    exact absurd hc ((old_loop_frame sd u rs _ _).2 ev hev fd b l f)
  · simp
    intro ev hev fd b l f hc
    exact (write_loop_frame sd u rs.length rs le_rfl _ _).2 ev hev fd b l f hc
  · simp
    intro ev hev fd b l f hc
    cases rs <;> simp [do_fsync] at hev <;> simp [hev] at hc

/-- C5 (capability flag is one-way).  On an instance whose `vmsplice_to_user`
flag is clear, `fio_spliceio_queue` leaves the flag clear for every request
and every script of kernel responses; the only `vmsplice` calls it can issue
are those of the write path (on the pipe's write end, `SPLICE_F_NONBLOCK`), so
no zero-copy move from the read end into user memory is issued; a read is
served by `fio_splice_read_old` alone; and over any sequence of submits every
run ends with the flag still clear. -/
theorem C5_capability_flag_one_way (sd : spliceio_data) (h : sd.vmsplice_to_user = 0) :
    (∀ (u : io_u) (errno : Nat) (rs : List Outcome),
      (fio_spliceio_queue sd u errno rs).sd.vmsplice_to_user = 0 ∧
      (∀ ev ∈ (fio_spliceio_queue sd u errno rs).trace, ∀ fd b l f,
          ev.call = .vmsplice fd b l f →
            u.ddir = .DDIR_WRITE ∧ fd = sd.pipe1 ∧ f = SPLICE_F_NONBLOCK) ∧
      (u.ddir = .DDIR_READ →
          fio_spliceio_queue sd u errno rs = complete sd (fio_splice_read_old sd u errno rs))) ∧
    (∀ (errno : Nat) (rs : List Outcome) (us : List io_u),
      ∀ q ∈ submit_seq sd errno rs us, q.sd.vmsplice_to_user = 0) := by
  refine ⟨fun u errno rs => ?_, ?_⟩
  · obtain ⟨h1, h2, h3⟩ := queue_flag_clear sd h u errno rs
    exact ⟨by rw [h1]; exact h, h2, h3⟩
  · intro errno rs us
    induction us generalizing errno rs with
    | nil => intro q hq; simp [submit_seq] at hq
    | cons u us ih =>
      intro q hq
      have h1 := (queue_flag_clear sd h u errno rs).1
      simp only [submit_seq] at hq
      split at hq
      · simp at hq; subst hq; rw [h1]; exact h
      · simp at hq
        rcases hq with hq | hq
        · subst hq; rw [h1]; exact h
        · rw [h1] at hq; exact ih _ _ q hq

/-! ## Zero-length requests (C8) and sync (C9) -/

/-- C8, amended (zero-length request).  For a read or write request with
`xfer_buflen = 0` that carries `resid = 0` and `error = 0` when it is
submitted, with the capability flag set or clear, `fio_spliceio_queue` issues
no system call, consumes no kernel response, reports `0` bytes, completes,
and leaves the request with residual `0` and no error. -/
theorem C8_zero_length (sd : spliceio_data) (u : io_u) (errno : Nat) (rs : List Outcome)
    (hd : u.ddir = .DDIR_READ ∨ u.ddir = .DDIR_WRITE) (hlen : u.xfer_buflen = 0)
    (hres : u.resid = 0) (herr : u.error = 0) :
    (fio_spliceio_queue sd u errno rs).trace = [] ∧
    (fio_spliceio_queue sd u errno rs).ret = some 0 ∧
    (fio_spliceio_queue sd u errno rs).u.resid = 0 ∧
    (fio_spliceio_queue sd u errno rs).u.error = 0 ∧
    (fio_spliceio_queue sd u errno rs).verror = none ∧
    (fio_spliceio_queue sd u errno rs).completion = some FIO_Q_COMPLETED ∧
    (fio_spliceio_queue sd u errno rs).rest = rs := by
  obtain ⟨ddir, fd, off, buf, len, resid, error, unmap⟩ := u
  simp only at hd hlen hres herr
  subst hlen hres herr
  rcases hd with hd | hd <;> subst hd
  · by_cases hf : sd.vmsplice_to_user = 0
    · cases rs <;>
        simp [fio_spliceio_queue, dispatch, hf, fio_splice_read_old, fio_splice_read_old_loop,
          complete, finish]
    · cases rs <;>
        simp [fio_spliceio_queue, dispatch, hf, fio_splice_read, fio_splice_read_loop,
          complete, finish, EBADF]
  · cases rs <;>
      simp [fio_spliceio_queue, dispatch, fio_splice_write, fio_splice_write_loop,
        complete, finish]

/-- C9, amended (sync delegation).  For a request whose direction is sync,
`fio_spliceio_queue` issues exactly one system call, `fsync` on the file's
descriptor, and none on either pipe end; the capability flag, `xfer_buf` and
the unmap marker are unchanged; `ret` is what `fsync` returned; when `fsync`
fails with code `e` and the length converted to `int` is not `-1`, the request
ends with `error = e`; when `fsync` succeeds and the request carried
`error = 0` when submitted, it ends with `error = 0`. -/
theorem C9_sync_passthrough (sd : spliceio_data) (u : io_u) (errno : Nat)
    (hd : u.ddir = .DDIR_SYNC) :
    ((fio_spliceio_queue sd u errno []).trace = [⟨.fsync u.fd, none⟩] ∧
      (fio_spliceio_queue sd u errno []).completion = none ∧
      (fio_spliceio_queue sd u errno []).sd = sd ∧
      (fio_spliceio_queue sd u errno []).u = u) ∧
    ∀ (r : Outcome) (rs : List Outcome),
      (fio_spliceio_queue sd u errno (r :: rs)).trace = [⟨.fsync u.fd, some r⟩] ∧
      (fio_spliceio_queue sd u errno (r :: rs)).sd = sd ∧
      (fio_spliceio_queue sd u errno (r :: rs)).u.xfer_buf = u.xfer_buf ∧
      (fio_spliceio_queue sd u errno (r :: rs)).u.unmap = u.unmap ∧
      (fio_spliceio_queue sd u errno (r :: rs)).completion = some FIO_Q_COMPLETED ∧
      (fio_spliceio_queue sd u errno (r :: rs)).ret = some r.ret ∧
      (fio_spliceio_queue sd u errno (r :: rs)).rest = rs ∧
      (∀ e, r = .fail e → to_int u.xfer_buflen ≠ -1 →
        (fio_spliceio_queue sd u errno (r :: rs)).u.error = e ∧
        (fio_spliceio_queue sd u errno (r :: rs)).verror =
          if e ≠ 0 then some (e, "xfer") else none) ∧
      (∀ n, r = .ok n → u.error = 0 →
        (fio_spliceio_queue sd u errno (r :: rs)).u.error = 0 ∧
        (fio_spliceio_queue sd u errno (r :: rs)).verror = none) := by
  obtain ⟨ddir, fd, off, buf, len, resid, error, unmap⟩ := u
  simp only at hd
  subst hd
  refine ⟨by simp [fio_spliceio_queue, dispatch, do_fsync, complete], ?_⟩
  intro r rs
  cases r with
  | ok n =>
    simp only [fio_spliceio_queue, dispatch, do_fsync, complete, finish, Outcome.ret_ok]
    split_ifs <;> simp_all
  | fail e =>
    simp only [fio_spliceio_queue, dispatch, do_fsync, complete, finish, Outcome.ret_fail,
      Outcome.errno_fail]
    by_cases hw : (-1 : Int) = to_int len
    · simp [hw, eq_comm]
    · have hw2 : to_int len ≠ -1 := fun h => hw h.symm
      simp [hw, hw2]

/-! ## Fallback within one submit (C4) -/

theorem read_loop_unsupported (sd : spliceio_data) (u : io_u) (k : Nat) (hk : k ≠ 0)
    (off p : Int) (rest : List Outcome) (pre : List Outcome)
    (hpre : ∀ r ∈ pre, transient r) :
    ∀ (errno : Nat) (b : Int),
      fio_splice_read_loop sd (pre ++ .ok k :: .fail EBADF :: rest) u errno
          ⟨off, 65536, p, b, 0⟩ =
        ⟨some (-(EBADF : Int)), u, EBADF,
          pre.map (fun r => ⟨.splice u.fd (some off) sd.pipe1 none 65536 SPLICE_F_MORE, some r⟩)
            ++ [⟨.splice u.fd (some off) sd.pipe1 none 65536 SPLICE_F_MORE, some (.ok k)⟩,
                ⟨.vmsplice sd.pipe0 p k SPLICE_F_MOVE, some (.fail EBADF)⟩],
          rest⟩ := by
  induction pre with
  | nil =>
    intro errno b
    simp [fio_splice_read_loop, SPLICE_DEF_SIZE, PathRun.after, hk]
  | cons r pre ih =>
    intro errno b
    have ih2 := ih (fun r hr => hpre r (List.mem_cons_of_mem _ hr))
    rcases hpre r (List.mem_cons_self _ _) with h | h | h <;> subst h
    · simp [fio_splice_read_loop, SPLICE_DEF_SIZE, PathRun.after, ih2, EAGAIN, ENODATA]
    · simp [fio_splice_read_loop, SPLICE_DEF_SIZE, PathRun.after, ih2, EAGAIN, ENODATA]
    · simp [fio_splice_read_loop, SPLICE_DEF_SIZE, PathRun.after, ih2]

theorem old_loop_done (sd : spliceio_data) (u : io_u) (rs : List Outcome) (errno : Nat)
    (off p : Int) :
    fio_splice_read_old_loop sd u rs errno ⟨off, 0, p, 0⟩ =
      ⟨some (to_int u.xfer_buflen), u, errno, [], rs⟩ := by
  cases rs <;> simp [fio_splice_read_old_loop]

/-- The fallback within the same submit, in every run the scenario of C4
describes: a one-chunk read on an instance whose flag is set, the file-to-pipe
`splice` answered by any number of retried responses and then a non-zero
count, the first `vmsplice` failing with `EBADF`, the two calls after it
returning the full count.  The flag is cleared and `fio_splice_read_old` runs,
but it starts from the pointer line 85 cleared: its `read` is issued with
buffer address `0` and the request ends with `xfer_buf = 0`. -/
theorem fallback_same_call_reads_null (sd : spliceio_data) (u : io_u) (errno : Nat)
    (pre : List Outcome) (k : Nat) (rest : List Outcome)
    (hflag : sd.vmsplice_to_user ≠ 0) (hd : u.ddir = .DDIR_READ)
    (hlen : (u.xfer_buflen : Int) = SPLICE_DEF_SIZE)
    (hpre : ∀ r ∈ pre, transient r) (hk : k ≠ 0) :
    (fio_spliceio_queue sd u errno
        (pre ++ .ok k :: .fail EBADF :: .ok 65536 :: .ok 65536 :: rest)).sd.vmsplice_to_user = 0 ∧
    (fio_spliceio_queue sd u errno
        (pre ++ .ok k :: .fail EBADF :: .ok 65536 :: .ok 65536 :: rest)).u.xfer_buf = 0 ∧
    (fio_spliceio_queue sd u errno
        (pre ++ .ok k :: .fail EBADF :: .ok 65536 :: .ok 65536 :: rest)).trace =
      pre.map (fun r =>
          ⟨.splice u.fd (some u.offset) sd.pipe1 none 65536 SPLICE_F_MORE, some r⟩)
        ++ [⟨.splice u.fd (some u.offset) sd.pipe1 none 65536 SPLICE_F_MORE, some (.ok k)⟩,
            ⟨.vmsplice sd.pipe0 u.xfer_buf k SPLICE_F_MOVE, some (.fail EBADF)⟩,
            ⟨.splice u.fd (some u.offset) sd.pipe1 none 65536 SPLICE_F_MORE,
              some (.ok 65536)⟩,
            ⟨.read sd.pipe0 0 65536, some (.ok 65536)⟩] := by
  obtain ⟨ddir, fd, off, buf, len, resid, error, unmap⟩ := u
  simp only at hd hlen
  have hlen2 : len = 65536 := by unfold SPLICE_DEF_SIZE at hlen; omega
  subst hd hlen2
  have h65 : to_int 65536 = 65536 := by decide
  have h := read_loop_unsupported sd ⟨.DDIR_READ, fd, off, 0, 65536, resid, error, unmap⟩ k hk
    off buf (.ok 65536 :: .ok 65536 :: rest) pre hpre errno 0
  simp only [fio_spliceio_queue, dispatch, fio_splice_read, ne_eq, hflag, not_false_eq_true,
    if_true, Nat.cast_ofNat, h65] at h ⊢
  simp [h, h65, fio_splice_read_old, fio_splice_read_old_loop, SPLICE_DEF_SIZE, PathRun.after,
    PathRun.afterAll, old_loop_done]

/-- The completion mapping on a short count (lines 196-200): for a length
that fits an `int`, a result `t` with `0 ≤ t < xfer_buflen` sets the residual
to `xfer_buflen - t` and the error to `0`. -/
theorem complete_short_count (sd : spliceio_data) (r : PathRun) (t : Int)
    (hb : r.u.xfer_buflen < 2147483648)
    (hr : r.ret = some t) (h0 : 0 ≤ t) (h1 : t < (r.u.xfer_buflen : Int)) :
    (complete sd r).u.resid = (r.u.xfer_buflen : Int) - t ∧
    (complete sd r).u.error = 0 ∧
    (complete sd r).completion = some FIO_Q_COMPLETED := by
  have hne : t ≠ to_int r.u.xfer_buflen := by rw [to_int_of_lt _ hb]; omega
  simp [complete, hr, hne, h0]

/-- The completion mapping on a negative result (lines 196-206), for a length
that fits an `int`: the error recorded on the request is the current value of
`errno`, whatever the result is, and it is reported through `td_verror` when it is non-zero. -/
theorem complete_negative (sd : spliceio_data) (r : PathRun) (t : Int)
    (hb : r.u.xfer_buflen < 2147483648)
    (hr : r.ret = some t) (h0 : t < 0) :
    (complete sd r).u.error = r.errno ∧
    (complete sd r).u.resid = r.u.resid ∧
    (complete sd r).verror = (if r.errno ≠ 0 then some (r.errno, "xfer") else none) := by
  have hne : t ≠ to_int r.u.xfer_buflen := by rw [to_int_of_lt _ hb]; omega
  have hlt : ¬ (0 ≤ t) := by omega
  simp [complete, finish, hr, hne, hlt]

/-! ## One step of the zero-copy read loop -/

theorem read_loop_blocked_vmsplice (sd : spliceio_data) (u : io_u) (errno : Nat)
    (v : read_vars) (h : v.iov_len ≠ 0) :
    fio_splice_read_loop sd [] u errno v =
      ⟨none, u, errno, [⟨.vmsplice sd.pipe0 v.iov_base v.iov_len SPLICE_F_MOVE, none⟩], []⟩ := by
  simp [fio_splice_read_loop, h]

theorem read_loop_blocked_splice (sd : spliceio_data) (u : io_u) (errno : Nat)
    (v : read_vars) (h : v.iov_len = 0) (hb : v.buflen ≠ 0) :
    fio_splice_read_loop sd [] u errno v =
      ⟨none, u, errno,
        [⟨.splice u.fd (some v.offset) sd.pipe1 none
            (if v.buflen > SPLICE_DEF_SIZE then SPLICE_DEF_SIZE else v.buflen) SPLICE_F_MORE,
          none⟩], []⟩ := by
  simp [fio_splice_read_loop, h, hb]

theorem read_loop_done (sd : spliceio_data) (rs : List Outcome) (u : io_u) (errno : Nat)
    (v : read_vars) (h : v.iov_len = 0) (hb : v.buflen = 0) :
    fio_splice_read_loop sd rs u errno v =
      ⟨some (to_int u.xfer_buflen), { u with unmap := some .splice_unmap_io_u }, errno, [],
        rs⟩ := by
  cases rs <;> simp [fio_splice_read_loop, h, hb]

theorem read_loop_vmsplice_fail (sd : spliceio_data) (rs : List Outcome) (u : io_u)
    (errno e : Nat) (v : read_vars) (h : v.iov_len ≠ 0) :
    fio_splice_read_loop sd (.fail e :: rs) u errno v =
      ⟨some (-(e : Int)), u, e,
        [⟨.vmsplice sd.pipe0 v.iov_base v.iov_len SPLICE_F_MOVE, some (.fail e)⟩], rs⟩ := by
  simp [fio_splice_read_loop, h]

theorem read_loop_vmsplice_zero (sd : spliceio_data) (rs : List Outcome) (u : io_u)
    (errno : Nat) (v : read_vars) (h : v.iov_len ≠ 0) :
    fio_splice_read_loop sd (.ok 0 :: rs) u errno v =
      ⟨some (-(ENODATA : Int)), u, errno,
        [⟨.vmsplice sd.pipe0 v.iov_base v.iov_len SPLICE_F_MOVE, some (.ok 0)⟩], rs⟩ := by
  simp [fio_splice_read_loop, h]

theorem read_loop_vmsplice_ok (sd : spliceio_data) (rs : List Outcome) (u : io_u)
    (errno m : Nat) (v : read_vars) (h : v.iov_len ≠ 0) (hm : m ≠ 0) :
    fio_splice_read_loop sd (.ok m :: rs) u errno v =
      (fio_splice_read_loop sd rs
        (if u.xfer_buf = 0 then { u with xfer_buf := v.iov_base } else u) errno
        { v with iov_len := v.iov_len - m, iov_base := v.iov_base + m }).after
        ⟨.vmsplice sd.pipe0 v.iov_base v.iov_len SPLICE_F_MOVE, some (.ok m)⟩ := by
  simp [fio_splice_read_loop, h, hm]

theorem read_loop_splice_retry (sd : spliceio_data) (rs : List Outcome) (u : io_u)
    (errno e : Nat) (v : read_vars) (h : v.iov_len = 0) (hb : v.buflen ≠ 0)
    (he : e = ENODATA ∨ e = EAGAIN) :
    fio_splice_read_loop sd (.fail e :: rs) u errno v =
      (fio_splice_read_loop sd rs u e v).after
        ⟨.splice u.fd (some v.offset) sd.pipe1 none
            (if v.buflen > SPLICE_DEF_SIZE then SPLICE_DEF_SIZE else v.buflen) SPLICE_F_MORE,
          some (.fail e)⟩ := by
  simp [fio_splice_read_loop, h, hb, he]

theorem read_loop_splice_fail (sd : spliceio_data) (rs : List Outcome) (u : io_u)
    (errno e : Nat) (v : read_vars) (h : v.iov_len = 0) (hb : v.buflen ≠ 0)
    (he : ¬ (e = ENODATA ∨ e = EAGAIN)) :
    fio_splice_read_loop sd (.fail e :: rs) u errno v =
      ⟨some (-(e : Int)), u, e,
        [⟨.splice u.fd (some v.offset) sd.pipe1 none
            (if v.buflen > SPLICE_DEF_SIZE then SPLICE_DEF_SIZE else v.buflen) SPLICE_F_MORE,
          some (.fail e)⟩], rs⟩ := by
  simp [fio_splice_read_loop, h, hb, he]

theorem read_loop_splice_ok (sd : spliceio_data) (rs : List Outcome) (u : io_u)
    (errno k : Nat) (v : read_vars) (h : v.iov_len = 0) (hb : v.buflen ≠ 0) :
    fio_splice_read_loop sd (.ok k :: rs) u errno v =
      (fio_splice_read_loop sd rs u errno
        { offset := v.offset + k, buflen := v.buflen - k, p := v.p + k,
          iov_base := v.p, iov_len := k }).after
        ⟨.splice u.fd (some v.offset) sd.pipe1 none
            (if v.buflen > SPLICE_DEF_SIZE then SPLICE_DEF_SIZE else v.buflen) SPLICE_F_MORE,
          some (.ok k)⟩ := by
  simp [fio_splice_read_loop, h, hb]

/-! ## The marker and the buffer after a zero-copy read -/

theorem read_loop_marker (sd : spliceio_data) (n : Int) (hn : 0 < n) (rs : List Outcome) :
    ∀ (u : io_u) (errno : Nat) (v : read_vars), u.unmap = none → to_int u.xfer_buflen = n →
      ((fio_splice_read_loop sd rs u errno v).u.unmap = some .splice_unmap_io_u ↔
        (fio_splice_read_loop sd rs u errno v).ret = some n) := by
  induction rs with
  | nil =>
    intro u errno v hu hl
    by_cases h : v.iov_len = 0
    · by_cases hb : v.buflen = 0
      · rw [read_loop_done sd _ u errno v h hb]; simp [hl]
      · rw [read_loop_blocked_splice sd u errno v h hb]; simp [hu]
    · rw [read_loop_blocked_vmsplice sd u errno v h]; simp [hu]
  | cons r rs ih =>
    intro u errno v hu hl
    by_cases h : v.iov_len = 0
    · by_cases hb : v.buflen = 0
      · rw [read_loop_done sd _ u errno v h hb]; simp [hl]
      · cases r with
        | ok k =>
          rw [read_loop_splice_ok sd rs u errno k v h hb]
          exact ih u errno _ hu hl
        | fail e =>
          by_cases he : e = ENODATA ∨ e = EAGAIN
          · rw [read_loop_splice_retry sd rs u errno e v h hb he]
            exact ih u e v hu hl
          · rw [read_loop_splice_fail sd rs u errno e v h hb he]
            simp [hu]; omega
    · cases r with
      | ok m =>
        by_cases hm : m = 0
        · subst hm
          rw [read_loop_vmsplice_zero sd rs u errno v h]
          simp [hu, ENODATA]; omega
        · rw [read_loop_vmsplice_ok sd rs u errno m v h hm]
          refine ih _ errno _ ?_ ?_ <;> split_ifs <;> simp [hu, hl]
      | fail e =>
        rw [read_loop_vmsplice_fail sd rs u errno e v h]
        simp [hu]; omega

theorem first_accepted_skip_splice (a : Int) (b : Option Int) (c : Int) (d : Option Int)
    (len : Int) (f : Nat) (res : Option Outcome) (evs : List Event) :
    first_accepted (⟨.splice a b c d len f, res⟩ :: evs) = first_accepted evs := by
  simp [first_accepted]

theorem read_loop_buffer (sd : spliceio_data) (rs : List Outcome) :
    ∀ (u : io_u) (errno : Nat) (v : read_vars), u.unmap = none →
      (fio_splice_read_loop sd rs u errno v).u.unmap ≠ none →
      (u.xfer_buf ≠ 0 → (fio_splice_read_loop sd rs u errno v).u.xfer_buf = u.xfer_buf) ∧
      (u.xfer_buf = 0 → v.iov_len ≠ 0 → v.iov_base ≠ 0 →
        (fio_splice_read_loop sd rs u errno v).u.xfer_buf = v.iov_base ∧
        first_accepted (fio_splice_read_loop sd rs u errno v).trace = some v.iov_base) ∧
      (u.xfer_buf = 0 → v.iov_len = 0 → v.buflen ≠ 0 → v.p ≠ 0 →
        (fio_splice_read_loop sd rs u errno v).u.xfer_buf = v.p ∧
        first_accepted (fio_splice_read_loop sd rs u errno v).trace = some v.p) := by
  induction rs with
  | nil =>
    intro u errno v hu
    by_cases h : v.iov_len = 0
    · by_cases hb : v.buflen = 0
      · rw [read_loop_done sd _ u errno v h hb]; simp [h, hb]
      · rw [read_loop_blocked_splice sd u errno v h hb]; simp [hu]
    · rw [read_loop_blocked_vmsplice sd u errno v h]; simp [hu]
  | cons r rs ih =>
    intro u errno v hu
    by_cases h : v.iov_len = 0
    · by_cases hb : v.buflen = 0
      · rw [read_loop_done sd _ u errno v h hb]; simp [h, hb]
      · cases r with
        | ok k =>
          rw [read_loop_splice_ok sd rs u errno k v h hb]
          intro hm
          obtain ⟨i1, i2, i3⟩ := ih u errno
            { offset := v.offset + k, buflen := v.buflen - k, p := v.p + k,
              iov_base := v.p, iov_len := k } hu hm
          refine ⟨i1, fun h0 h1 => absurd h h1, fun h0 _ _ hp => ?_⟩
          simp only [PathRun.after, first_accepted_skip_splice]
          by_cases hk : k = 0
          · subst hk
            have := i3 h0 (by simp) (by simpa using hb) (by simpa using hp)
            simpa using this
          · exact i2 h0 (by simpa using hk) hp
        | fail e =>
          by_cases he : e = ENODATA ∨ e = EAGAIN
          · rw [read_loop_splice_retry sd rs u errno e v h hb he]
            intro hm
            obtain ⟨i1, i2, i3⟩ := ih u e v hu hm
            refine ⟨i1, fun h0 h1 => absurd h h1, fun h0 _ _ hp => ?_⟩
            simp only [PathRun.after, first_accepted_skip_splice]
            exact i3 h0 h hb hp
          · rw [read_loop_splice_fail sd rs u errno e v h hb he]
            simp [hu]
    · cases r with
      | ok m =>
        by_cases hm : m = 0
        · subst hm
          rw [read_loop_vmsplice_zero sd rs u errno v h]
          simp [hu]
        · rw [read_loop_vmsplice_ok sd rs u errno m v h hm]
          intro hmk
          obtain ⟨m', rfl⟩ := Nat.exists_eq_succ_of_ne_zero hm
          by_cases h0 : u.xfer_buf = 0
          · rw [if_pos h0] at hmk ⊢
            obtain ⟨i1, -, -⟩ := ih { u with xfer_buf := v.iov_base } errno _ (by simpa using hu) hmk
            refine ⟨fun hne => absurd h0 hne, fun _ _ hb0 => ?_, fun _ h1 => absurd h1 h⟩
            exact ⟨i1 hb0, by simp [PathRun.after, first_accepted]⟩
          · rw [if_neg h0] at hmk ⊢
            obtain ⟨i1, -, -⟩ := ih u errno _ hu hmk
            exact ⟨fun _ => i1 h0, fun h1 => absurd h1 h0, fun h1 => absurd h1 h0⟩
      | fail e =>
        rw [read_loop_vmsplice_fail sd rs u errno e v h]
        simp [hu]

/-! ## Marker consistency (C7) -/

theorem queue_read_capable (sd : spliceio_data) (u : io_u) (errno : Nat) (rs : List Outcome)
    (hd : u.ddir = .DDIR_READ) (hflag : sd.vmsplice_to_user ≠ 0) :
    (fio_spliceio_queue sd u errno rs).u.unmap = (fio_splice_read sd u errno rs).u.unmap ∧
    (fio_spliceio_queue sd u errno rs).u.xfer_buf =
      (fio_splice_read sd u errno rs).u.xfer_buf ∧
    ((fio_splice_read sd u errno rs).ret ≠ some (-(EBADF : Int)) →
      (fio_spliceio_queue sd u errno rs).trace = (fio_splice_read sd u errno rs).trace) := by
  simp only [fio_spliceio_queue, dispatch, hd, ne_eq, hflag, not_false_eq_true, if_true]
  cases hr : (fio_splice_read sd u errno rs).ret with
  | none => simp [hr]
  | some ret =>
    by_cases he : ret = -(EBADF : Int)
    · simp [he, fio_splice_read_old, PathRun.afterAll, (old_loop_frame _ _ _ _ _).1]
    · simp [he, hflag]

theorem queue_no_zero_copy (sd : spliceio_data) (u : io_u) (errno : Nat) (rs : List Outcome)
    (h : u.ddir ≠ .DDIR_READ ∨ sd.vmsplice_to_user = 0) :
    (fio_spliceio_queue sd u errno rs).u.unmap = u.unmap ∧
    (fio_spliceio_queue sd u errno rs).u.xfer_buf = u.xfer_buf := by
  unfold fio_spliceio_queue dispatch
  cases hd : u.ddir
  · have hf : sd.vmsplice_to_user = 0 := by
      rcases h with h | h
      · exact absurd hd h
      · exact h
    simp [hf, fio_splice_read_old, (old_loop_frame _ _ _ _ _).1]
  · simp [fio_splice_write, (write_loop_frame sd u rs.length rs le_rfl _ _).1]
  · cases rs <;> simp [do_fsync]

/-- C7, amended (marker follows the path).  For a request submitted with its
unmap marker unset: the marker is `splice_unmap_io_u` after the call exactly
when the request is a read, the flag was set and `fio_splice_read` set it on
line 119, which for a length that fits an `int` is exactly when
`fio_splice_read` returned `xfer_buflen`; when moreover the marker is set, the length is non-zero and the caller's buffer is non-null,
`xfer_buf` is non-null, is the base of the first segment a `vmsplice`
accepted bytes from, and equals the caller's buffer address; and for a write,
a sync, or a read submitted with the flag clear, the marker stays unset and
`xfer_buf` is the caller's buffer. -/
theorem C7_marker_follows_path (sd : spliceio_data) (u : io_u) (errno : Nat)
    (rs : List Outcome) (hm : u.unmap = none) :
    ((fio_spliceio_queue sd u errno rs).u.unmap = some .splice_unmap_io_u ↔
      (u.ddir = .DDIR_READ ∧ sd.vmsplice_to_user ≠ 0 ∧
        (fio_splice_read sd u errno rs).u.unmap = some .splice_unmap_io_u)) ∧
    (u.xfer_buflen < 2147483648 →
      ((fio_spliceio_queue sd u errno rs).u.unmap = some .splice_unmap_io_u ↔
        (u.ddir = .DDIR_READ ∧ sd.vmsplice_to_user ≠ 0 ∧
          (fio_splice_read sd u errno rs).ret = some (u.xfer_buflen : Int)))) ∧
    (u.xfer_buflen < 2147483648 →
      (fio_spliceio_queue sd u errno rs).u.unmap = some .splice_unmap_io_u →
      u.xfer_buflen ≠ 0 → u.xfer_buf ≠ 0 →
        (fio_spliceio_queue sd u errno rs).u.xfer_buf ≠ 0 ∧
        first_accepted (fio_spliceio_queue sd u errno rs).trace
          = some (fio_spliceio_queue sd u errno rs).u.xfer_buf ∧
        (fio_spliceio_queue sd u errno rs).u.xfer_buf = u.xfer_buf) ∧
    ((u.ddir ≠ .DDIR_READ ∨ sd.vmsplice_to_user = 0) →
      (fio_spliceio_queue sd u errno rs).u.unmap = none ∧
      (fio_spliceio_queue sd u errno rs).u.xfer_buf = u.xfer_buf) := by
  have hiff : u.xfer_buflen < 2147483648 →
      ((fio_spliceio_queue sd u errno rs).u.unmap = some .splice_unmap_io_u ↔
      (u.ddir = .DDIR_READ ∧ sd.vmsplice_to_user ≠ 0 ∧
        (fio_splice_read sd u errno rs).ret = some (u.xfer_buflen : Int))) := by
    intro hb
    have hti : to_int u.xfer_buflen = (u.xfer_buflen : Int) := to_int_of_lt _ hb
    by_cases hc : u.ddir ≠ .DDIR_READ ∨ sd.vmsplice_to_user = 0
    · rw [(queue_no_zero_copy sd u errno rs hc).1, hm]
      constructor
      · intro h; cases h
      · rintro ⟨h1, h2, -⟩
        rcases hc with hc | hc
        · exact absurd h1 hc
        · exact absurd hc h2
    · have hd : u.ddir = .DDIR_READ := by
        by_contra h; exact hc (Or.inl h)
      have hf : sd.vmsplice_to_user ≠ 0 := fun h => hc (Or.inr h)
      rw [(queue_read_capable sd u errno rs hd hf).1]
      by_cases hl : u.xfer_buflen = 0
      · have : fio_splice_read sd u errno rs =
            ⟨some (u.xfer_buflen : Int),
              { u with xfer_buf := 0, unmap := some .splice_unmap_io_u }, errno, [], rs⟩ := by
          unfold fio_splice_read
          rw [read_loop_done sd rs _ errno _ rfl (by simp [hl])]
          simp [hl]
        rw [this]; simp [hd, hf]
      · have := read_loop_marker sd (u.xfer_buflen : Int) (by omega) rs
          { u with xfer_buf := 0 } errno
          ⟨u.offset, to_int u.xfer_buflen, u.xfer_buf, 0, 0⟩ hm hti
        unfold fio_splice_read
        rw [this]; simp [hd, hf]
  refine ⟨?_, hiff, ?_, fun hc => ?_⟩
  · by_cases hc : u.ddir ≠ .DDIR_READ ∨ sd.vmsplice_to_user = 0
    · rw [(queue_no_zero_copy sd u errno rs hc).1, hm]
      constructor
      · intro h; cases h
      · rintro ⟨h1, h2, -⟩
        rcases hc with hc | hc
        · exact absurd h1 hc
        · exact absurd hc h2
    · have hd : u.ddir = .DDIR_READ := by
        by_contra h; exact hc (Or.inl h)
      have hf : sd.vmsplice_to_user ≠ 0 := fun h => hc (Or.inr h)
      rw [(queue_read_capable sd u errno rs hd hf).1]
      simp [hd, hf]
  · intro hb hset hl hbuf
    have hti : to_int u.xfer_buflen = (u.xfer_buflen : Int) := to_int_of_lt _ hb
    obtain ⟨hd, hf, hret⟩ := (hiff hb).mp hset
    obtain ⟨q1, q2, q3⟩ := queue_read_capable sd u errno rs hd hf
    have hne : (fio_splice_read sd u errno rs).ret ≠ some (-(EBADF : Int)) := by
      rw [hret]; simp; omega
    rw [q1] at hset
    rw [q2, q3 hne]
    unfold fio_splice_read at hset ⊢
    have hb3 := (read_loop_buffer sd rs { u with xfer_buf := 0 } errno
      ⟨u.offset, to_int u.xfer_buflen, u.xfer_buf, 0, 0⟩ hm (by rw [hset]; simp)).2.2
      rfl rfl (by rw [hti]; simpa using hl) hbuf
    rw [hb3.1, hb3.2]
    exact ⟨hbuf, rfl, rfl⟩
  · have := queue_no_zero_copy sd u errno rs hc
    exact ⟨by rw [this.1, hm], this.2⟩

/-! ## Progress of the zero-copy read (C10) -/

theorem this_len_eq_min (b : Int) :
    (if b > SPLICE_DEF_SIZE then SPLICE_DEF_SIZE else b) = min b SPLICE_DEF_SIZE := by
  simp only [min_def]; split_ifs <;> omega

theorem read_loop_progress (sd : spliceio_data) (n : Int) (rs : List Outcome) :
    ∀ (u : io_u) (errno : Nat) (v : read_vars), to_int u.xfer_buflen = n →
      0 ≤ v.buflen → 0 ≤ v.iov_len → (v.iov_len ≠ 0 → v.iov_base + v.iov_len = v.p) →
      (∀ ev ∈ (fio_splice_read_loop sd rs u errno v).trace,
          ev.res ≠ none → ev.well_behaved = true) →
      (((fio_splice_read_loop sd rs u errno v).trace.length : Int)
          ≤ 2 * v.buflen + v.iov_len) ∧
      ((fio_splice_read_loop sd rs u errno v).ret = none →
        (fio_splice_read_loop sd rs u errno v).trace.length = rs.length + 1) ∧
      ((fio_splice_read_loop sd rs u errno v).ret ≠ none →
        (fio_splice_read_loop sd rs u errno v).ret = some n ∧
        (fio_splice_read_loop sd rs u errno v).u.unmap = some .splice_unmap_io_u ∧
        splice_accounting v.buflen (fio_splice_read_loop sd rs u errno v).trace = true ∧
        (splice_counts (fio_splice_read_loop sd rs u errno v).trace).sum = v.buflen ∧
        tiles (v.p - v.iov_len) (accepted (fio_splice_read_loop sd rs u errno v).trace)
          (v.p + v.buflen) = true) := by
  induction rs with
  | nil =>
    intro u errno v hl hb0 hi0 hinv
    by_cases h : v.iov_len = 0
    · by_cases hb : v.buflen = 0
      · rw [read_loop_done sd _ u errno v h hb]
        simp [hl, splice_accounting, splice_counts, tiles, accepted, h, hb]
      · rw [read_loop_blocked_splice sd u errno v h hb]
        simp; omega
    · rw [read_loop_blocked_vmsplice sd u errno v h]
      simp; omega
  | cons r rs ih =>
    intro u errno v hl hb0 hi0 hinv
    by_cases h : v.iov_len = 0
    · by_cases hb : v.buflen = 0
      · rw [read_loop_done sd _ u errno v h hb]
        simp [hl, splice_accounting, splice_counts, tiles, accepted, h, hb]
      · cases r with
        | ok k =>
          rw [read_loop_splice_ok sd rs u errno k v h hb, this_len_eq_min]
          intro hgood
          simp only [PathRun.after, List.mem_cons, forall_eq_or_imp] at hgood
          obtain ⟨hg0, hgood⟩ := hgood
          simp [Event.well_behaved] at hg0
          have hk : (k : Int) ≤ v.buflen := hg0.2.1
          obtain ⟨i1, i2, i3⟩ := ih u errno
            { offset := v.offset + k, buflen := v.buflen - k, p := v.p + k,
              iov_base := v.p, iov_len := k } hl (by simp; omega) (by simp) (by simp) hgood
          simp only [PathRun.after] at i1 i2 i3 ⊢
          refine ⟨?_, ?_, ?_⟩
          · simp only [List.length_cons]; push_cast; omega
          · intro hr; simp [i2 hr]
          · intro hr
            obtain ⟨j1, j2, j3, j4, j5⟩ := i3 hr
            refine ⟨j1, j2, ?_, ?_, ?_⟩
            · simp [splice_accounting, moved, hb0, j3]
            · simp [splice_counts, moved, j4]
            · simp only [accepted]
              have e1 : v.p + (k : Int) - (k : Int) = v.p - v.iov_len := by omega
              have e2 : v.p + (k : Int) + (v.buflen - (k : Int)) = v.p + v.buflen := by omega
              rw [e1, e2] at j5
              exact j5
        | fail e =>
          by_cases he : e = ENODATA ∨ e = EAGAIN
          · rw [read_loop_splice_retry sd rs u errno e v h hb he]
            intro hgood
            simp [PathRun.after, Event.well_behaved] at hgood
          · rw [read_loop_splice_fail sd rs u errno e v h hb he]
            intro hgood
            simp [Event.well_behaved] at hgood
    · cases r with
      | ok m =>
        by_cases hm : m = 0
        · subst hm
          rw [read_loop_vmsplice_zero sd rs u errno v h]
          intro hgood
          simp [Event.well_behaved] at hgood
        · rw [read_loop_vmsplice_ok sd rs u errno m v h hm]
          intro hgood
          simp only [PathRun.after, List.mem_cons, forall_eq_or_imp] at hgood
          obtain ⟨hg0, hgood⟩ := hgood
          simp [Event.well_behaved] at hg0
          have hbase := hinv h
          obtain ⟨i1, i2, i3⟩ := ih
            (if u.xfer_buf = 0 then { u with xfer_buf := v.iov_base } else u) errno
            { v with iov_len := v.iov_len - m, iov_base := v.iov_base + m }
            (by split_ifs <;> simp [hl]) hb0 (by simp; omega) (by simp; omega) hgood
          simp only [PathRun.after] at i1 i2 i3 ⊢
          refine ⟨?_, ?_, ?_⟩
          · simp only [List.length_cons]; push_cast; omega
          · intro hr; simp [i2 hr]
          · intro hr
            obtain ⟨j1, j2, j3, j4, j5⟩ := i3 hr
            refine ⟨j1, j2, ?_, ?_, ?_⟩
            · simp [splice_accounting, hb0, j3]
            · simp [splice_counts, j4]
            · simp only [accepted, tiles, moved]
              have e1 : v.p - (v.iov_len - (m : Int)) = v.p - v.iov_len + (m : Int) := by omega
              rw [e1] at j5
              simp [j5]
              omega
      | fail e =>
        rw [read_loop_vmsplice_fail sd rs u errno e v h]
        intro hgood
        simp [Event.well_behaved] at hgood

/-- C10, amended (progress of the zero-copy read).  Take a run of
`fio_splice_read` on a request of `n = xfer_buflen` bytes at buffer `p`, with
`n` fitting an `int`, in which every answered `splice` and `vmsplice` moved
at least one byte and at most what it was asked for.  The run issues at most
`2 * n` system calls; with at least `2 * n` scripted responses it returns `n`
and tags the request; every file-to-pipe `splice` asked for
`min remaining SPLICE_DEF_SIZE` bytes with the remaining length never
negative; the counts those calls returned sum to `n`; and the byte ranges
accepted by the successive `vmsplice` calls cover `[p, p + n)` exactly, in
increasing address order, without gap or overlap. -/
theorem C10_zero_copy_read_progress (sd : spliceio_data) (u : io_u) (errno : Nat)
    (rs : List Outcome) (hb : u.xfer_buflen < 2147483648)
    (hgood : ∀ ev ∈ (fio_splice_read sd u errno rs).trace,
      ev.res ≠ none → ev.well_behaved = true) :
    (fio_splice_read sd u errno rs).trace.length ≤ 2 * u.xfer_buflen ∧
    (2 * u.xfer_buflen ≤ rs.length →
      (fio_splice_read sd u errno rs).ret = some (u.xfer_buflen : Int) ∧
      (fio_splice_read sd u errno rs).u.unmap = some .splice_unmap_io_u ∧
      splice_accounting (u.xfer_buflen : Int) (fio_splice_read sd u errno rs).trace = true ∧
      (splice_counts (fio_splice_read sd u errno rs).trace).sum = (u.xfer_buflen : Int) ∧
      tiles u.xfer_buf (accepted (fio_splice_read sd u errno rs).trace)
        (u.xfer_buf + (u.xfer_buflen : Int)) = true) := by
  have hti : to_int u.xfer_buflen = (u.xfer_buflen : Int) := to_int_of_lt _ hb
  unfold fio_splice_read at hgood ⊢
  rw [hti] at hgood ⊢
  obtain ⟨h1, h2, h3⟩ := read_loop_progress sd (u.xfer_buflen : Int) rs
    { u with xfer_buf := 0 } errno
    ⟨u.offset, (u.xfer_buflen : Int), u.xfer_buf, 0, 0⟩ hti (by simp) (by simp) (by simp) hgood
  simp only [add_zero, sub_zero] at h1 h3
  have hlen : (fio_splice_read_loop sd rs { u with xfer_buf := 0 } errno
      ⟨u.offset, (u.xfer_buflen : Int), u.xfer_buf, 0, 0⟩).trace.length ≤ 2 * u.xfer_buflen := by
    omega
  refine ⟨hlen, fun hrs => ?_⟩
  apply h3
  intro hnone
  have := h2 hnone
  omega

/-! ## The code at concrete inputs -/

/-- C1 (code at the failing input).  A zero-copy read whose `vmsplice` accepts
`0` bytes returns `-ENODATA`, yet the request ends with `error` equal to the
value `errno` happened to hold: `0` (no error, nothing reported) when `errno`
was `0`, and `EAGAIN` when the file-to-pipe `splice` had been retried once. -/
theorem C1_enodata_not_recorded :
    (fio_spliceio_queue sd_fresh (read_req 4096) 0 [.ok 4096, .ok 0]).ret
      = some (-(ENODATA : Int)) ∧
    (fio_spliceio_queue sd_fresh (read_req 4096) 0 [.ok 4096, .ok 0]).u.error = 0 ∧
    (fio_spliceio_queue sd_fresh (read_req 4096) 0 [.ok 4096, .ok 0]).verror = none ∧
    (fio_spliceio_queue sd_fresh (read_req 4096) 0 [.fail EAGAIN, .ok 4096, .ok 0]).ret
      = some (-(ENODATA : Int)) ∧
    (fio_spliceio_queue sd_fresh (read_req 4096) 0 [.fail EAGAIN, .ok 4096, .ok 0]).u.error
      = EAGAIN := by
  decide

/-- C2 (code at the failing input).  A 4096-byte write whose `poll` fails with
code `4`: `fio_splice_write` returns `+4`, and the request ends with
`error = 0`, residual `4092` and nothing reported. -/
theorem C2_poll_failure_reported_as_progress :
    (fio_spliceio_queue sd_fresh (write_req 4096) 0 [.fail 4]).trace
      = [⟨.poll 4 POLLOUT (-1), some (.fail 4)⟩] ∧
    (fio_spliceio_queue sd_fresh (write_req 4096) 0 [.fail 4]).ret = some 4 ∧
    (fio_spliceio_queue sd_fresh (write_req 4096) 0 [.fail 4]).u.error = 0 ∧
    (fio_spliceio_queue sd_fresh (write_req 4096) 0 [.fail 4]).u.resid = 4092 ∧
    (fio_spliceio_queue sd_fresh (write_req 4096) 0 [.fail 4]).verror = none := by
  decide

/-- C3 (code at the failing inputs).  A fresh two-chunk read whose second
`vmsplice` accepts `0` bytes, with `errno = 0` beforehand, ends with
`error = 0`, `ret = -61` and residual `0`, so `ret + resid` is not the
requested length; a fresh 2-byte write whose `poll` fails with code `4` ends
with `error = 0`, `ret = 4` and residual `2 - 4`, outside `0 .. xfer_buflen`. -/
theorem C3_error_free_completion_without_transfer :
    ((read_req 131072).resid = 0 ∧ (read_req 131072).error = 0 ∧
      (fio_spliceio_queue sd_fresh (read_req 131072) 0
        [.ok 65536, .ok 65536, .ok 65536, .ok 0]).u.error = 0 ∧
      (fio_spliceio_queue sd_fresh (read_req 131072) 0
        [.ok 65536, .ok 65536, .ok 65536, .ok 0]).ret = some (-61) ∧
      (fio_spliceio_queue sd_fresh (read_req 131072) 0
        [.ok 65536, .ok 65536, .ok 65536, .ok 0]).u.resid = 0) ∧
    ((fio_spliceio_queue sd_fresh (write_req 2) 0 [.fail 4]).u.error = 0 ∧
      (fio_spliceio_queue sd_fresh (write_req 2) 0 [.fail 4]).ret = some 4 ∧
      (fio_spliceio_queue sd_fresh (write_req 2) 0 [.fail 4]).u.resid = -2) := by
  decide

/-- C6 (code at the failing input).  A read into the buffer at `4096` on
an instance whose flag is set, where the first `vmsplice` fails with `EBADF`:
the fallback in the same call issues its `read` with buffer address `0`
(`NULL`), and the request ends with `xfer_buf = 0`. -/
theorem C6_fallback_copies_to_null :
    (read_req 4096).xfer_buf = 4096 ∧
    (fio_spliceio_queue sd_fresh (read_req 4096) 0
        [.ok 4096, .fail EBADF, .ok 4096, .fail 14]).trace =
      [⟨.splice 5 (some 0) 4 none 4096 SPLICE_F_MORE, some (.ok 4096)⟩,
       ⟨.vmsplice 3 4096 4096 SPLICE_F_MOVE, some (.fail EBADF)⟩,
       ⟨.splice 5 (some 0) 4 none 4096 SPLICE_F_MORE, some (.ok 4096)⟩,
       ⟨.read 3 0 4096, some (.fail 14)⟩] ∧
    (fio_spliceio_queue sd_fresh (read_req 4096) 0
        [.ok 4096, .fail EBADF, .ok 4096, .fail 14]).u.xfer_buf = 0 ∧
    (fio_spliceio_queue sd_fresh (read_req 4096) 0
        [.ok 4096, .fail EBADF, .ok 4096, .fail 14]).u.error = 14 ∧
    (fio_spliceio_queue sd_fresh (read_req 4096) 0
        [.ok 4096, .fail EBADF, .ok 4096, .fail 14]).sd.vmsplice_to_user = 0 := by
  decide

/-- C4 (code at the failing input).  A one-chunk read on an instance whose
flag is set, where the first `vmsplice` fails with `EBADF`: the flag is
cleared and the fallback runs in the same call, but its `read` is issued with
buffer address `0` (`NULL`), which the kernel answers with `EFAULT` (`14`).
The request ends with `ret = -14`, `error = 14` reported through `td_verror`,
and `xfer_buf = 0`. -/
theorem C4_fallback_read_into_null_fails :
    (read_req 65536).xfer_buf = 4096 ∧
    (fio_spliceio_queue sd_fresh (read_req 65536) 0
        [.ok 65536, .fail EBADF, .ok 65536, .fail 14]).trace =
      [⟨.splice 5 (some 0) 4 none 65536 SPLICE_F_MORE, some (.ok 65536)⟩,
       ⟨.vmsplice 3 4096 65536 SPLICE_F_MOVE, some (.fail EBADF)⟩,
       ⟨.splice 5 (some 0) 4 none 65536 SPLICE_F_MORE, some (.ok 65536)⟩,
       ⟨.read 3 0 65536, some (.fail 14)⟩] ∧
    (fio_spliceio_queue sd_fresh (read_req 65536) 0
        [.ok 65536, .fail EBADF, .ok 65536, .fail 14]).sd.vmsplice_to_user = 0 ∧
    (fio_spliceio_queue sd_fresh (read_req 65536) 0
        [.ok 65536, .fail EBADF, .ok 65536, .fail 14]).ret = some (-14) ∧
    (fio_spliceio_queue sd_fresh (read_req 65536) 0
        [.ok 65536, .fail EBADF, .ok 65536, .fail 14]).u.error = 14 ∧
    (fio_spliceio_queue sd_fresh (read_req 65536) 0
        [.ok 65536, .fail EBADF, .ok 65536, .fail 14]).verror = some (14, "xfer") ∧
    (fio_spliceio_queue sd_fresh (read_req 65536) 0
        [.ok 65536, .fail EBADF, .ok 65536, .fail 14]).u.xfer_buf = 0 := by
  decide

/-- C7 as stated fails: a zero-length read on an instance whose flag is set
ends with the marker set and `xfer_buf = 0` (`NULL`), no `vmsplice` having
been issued; so does a read of `2^32` bytes, whose length is `0` once
narrowed to `int`; and a 2-byte read from a null caller buffer whose first
`vmsplice` accepts one byte ends with the marker set and `xfer_buf = 1`, the
base of the second segment, not of the first one accepted. -/
theorem C7_marker_set_on_null_buffer :
    ((read_req 0).unmap = none ∧
      (fio_spliceio_queue sd_fresh (read_req 0) 0 []).u.unmap = some .splice_unmap_io_u ∧
      (fio_spliceio_queue sd_fresh (read_req 0) 0 []).u.xfer_buf = 0 ∧
      (fio_spliceio_queue sd_fresh (read_req 0) 0 []).trace = []) ∧
    ((fio_spliceio_queue sd_fresh (with_length (read_req 0) 4294967296) 0 []).u.unmap
        = some .splice_unmap_io_u ∧
      (fio_spliceio_queue sd_fresh (with_length (read_req 0) 4294967296) 0 []).u.xfer_buf = 0 ∧
      (fio_spliceio_queue sd_fresh (with_length (read_req 0) 4294967296) 0 []).trace = []) ∧
    ((fio_spliceio_queue sd_fresh (with_null_buffer (read_req 2)) 0
        [.ok 2, .ok 1, .ok 1]).u.unmap = some .splice_unmap_io_u ∧
      (fio_spliceio_queue sd_fresh (with_null_buffer (read_req 2)) 0
        [.ok 2, .ok 1, .ok 1]).u.xfer_buf = 1 ∧
      first_accepted (fio_spliceio_queue sd_fresh (with_null_buffer (read_req 2)) 0
        [.ok 2, .ok 1, .ok 1]).trace = some 0) := by
  decide

/-- C8 as stated fails: a zero-length write that still carries error code `5`
ends with `error = 5`. -/
theorem C8_stale_error_survives :
    (with_stale_error (write_req 0)).xfer_buflen = 0 ∧
    (fio_spliceio_queue sd_fresh (with_stale_error (write_req 0)) 0 []).trace = [] ∧
    (fio_spliceio_queue sd_fresh (with_stale_error (write_req 0)) 0 []).ret = some 0 ∧
    (fio_spliceio_queue sd_fresh (with_stale_error (write_req 0)) 0 []).u.error = 5 := by
  decide

/-- C9 as stated fails: a sync request of length `0` that still carries error
code `5` ends with `error = 5` although `fsync` succeeded; and a fresh sync
request of length `2^32 - 1`, which is `-1` once narrowed to `int`, ends with
`error = 0` and nothing reported although `fsync` failed with code `5`. -/
theorem C9_stale_error_survives :
    ((fio_spliceio_queue sd_fresh (with_stale_error sync_req) 0 [.ok 0]).trace
        = [⟨.fsync 5, some (.ok 0)⟩] ∧
      (fio_spliceio_queue sd_fresh (with_stale_error sync_req) 0 [.ok 0]).ret = some 0 ∧
      (fio_spliceio_queue sd_fresh (with_stale_error sync_req) 0 [.ok 0]).u.error = 5) ∧
    ((fio_spliceio_queue sd_fresh (with_length sync_req 4294967295) 0 [.fail 5]).trace
        = [⟨.fsync 5, some (.fail 5)⟩] ∧
      (fio_spliceio_queue sd_fresh (with_length sync_req 4294967295) 0 [.fail 5]).ret
        = some (-1) ∧
      (fio_spliceio_queue sd_fresh (with_length sync_req 4294967295) 0 [.fail 5]).u.error = 0 ∧
      (fio_spliceio_queue sd_fresh (with_length sync_req 4294967295) 0 [.fail 5]).verror
        = none) := by
  decide

/-- C10 as stated fails: on a 2-byte read whose first `vmsplice` accepts one
byte, the segments handed to `vmsplice` are `(4096, 2)` and `(4097, 1)`; they
share the byte at `4097`, so they do not tile `[4096, 4098)`.  And a read of
`2^32` bytes, whose length is `0` once narrowed to `int`, returns `0` without
a single system call. -/
theorem C10_passed_segments_overlap :
    ((fio_splice_read sd_fresh (read_req 2) 0 [.ok 2, .ok 1, .ok 1]).trace =
        [⟨.splice 5 (some 0) 4 none 2 SPLICE_F_MORE, some (.ok 2)⟩,
         ⟨.vmsplice 3 4096 2 SPLICE_F_MOVE, some (.ok 1)⟩,
         ⟨.vmsplice 3 4097 1 SPLICE_F_MOVE, some (.ok 1)⟩] ∧
      (fio_splice_read sd_fresh (read_req 2) 0 [.ok 2, .ok 1, .ok 1]).trace.all
        Event.well_behaved = true ∧
      (fio_splice_read sd_fresh (read_req 2) 0 [.ok 2, .ok 1, .ok 1]).ret = some 2 ∧
      passed (fio_splice_read sd_fresh (read_req 2) 0 [.ok 2, .ok 1, .ok 1]).trace
        = [(4096, 2), (4097, 1)] ∧
      tiles 4096 (passed (fio_splice_read sd_fresh (read_req 2) 0 [.ok 2, .ok 1, .ok 1]).trace)
        4098 = false) ∧
    ((with_length (read_req 2) 4294967296).xfer_buflen = 4294967296 ∧
      (fio_splice_read sd_fresh (with_length (read_req 2) 4294967296) 0
        [.ok 65536, .ok 65536]).ret = some 0 ∧
      (fio_splice_read sd_fresh (with_length (read_req 2) 4294967296) 0
        [.ok 65536, .ok 65536]).trace = []) := by
  decide

/-! ## Concrete instances -/

/-- C5 at a concrete instance: a read on an instance with the flag clear. -/
theorem C5_witness :
    sd_incapable.vmsplice_to_user = 0 ∧
    (fio_spliceio_queue sd_incapable (read_req 4096) 0
      [.ok 4096, .ok 4096]).sd.vmsplice_to_user = 0 ∧
    fio_spliceio_queue sd_incapable (read_req 4096) 0 [.ok 4096, .ok 4096] =
      complete sd_incapable (fio_splice_read_old sd_incapable (read_req 4096) 0
        [.ok 4096, .ok 4096]) :=
  ⟨rfl, ((C5_capability_flag_one_way sd_incapable rfl).1 (read_req 4096) 0
      [.ok 4096, .ok 4096]).1,
    ((C5_capability_flag_one_way sd_incapable rfl).1 (read_req 4096) 0
      [.ok 4096, .ok 4096]).2.2 rfl⟩

/-- C8 (amended) at a concrete input: a fresh zero-length read. -/
theorem C8_witness :
    (fio_spliceio_queue sd_fresh (read_req 0) 7 [.ok 1]).trace = [] ∧
    (fio_spliceio_queue sd_fresh (read_req 0) 7 [.ok 1]).ret = some 0 ∧
    (fio_spliceio_queue sd_fresh (read_req 0) 7 [.ok 1]).u.resid = 0 ∧
    (fio_spliceio_queue sd_fresh (read_req 0) 7 [.ok 1]).u.error = 0 ∧
    (fio_spliceio_queue sd_fresh (read_req 0) 7 [.ok 1]).verror = none ∧
    (fio_spliceio_queue sd_fresh (read_req 0) 7 [.ok 1]).completion = some FIO_Q_COMPLETED ∧
    (fio_spliceio_queue sd_fresh (read_req 0) 7 [.ok 1]).rest = [.ok 1] :=
  C8_zero_length sd_fresh (read_req 0) 7 [.ok 1] (Or.inl rfl) rfl rfl rfl

/-- C9 (amended) at a concrete input: a fresh sync request, `fsync` failing
and succeeding. -/
theorem C9_witness :
    sync_req.ddir = .DDIR_SYNC ∧
    (fio_spliceio_queue sd_fresh sync_req 0 [.fail 5]).trace
      = [⟨.fsync sync_req.fd, some (.fail 5)⟩] ∧
    (fio_spliceio_queue sd_fresh sync_req 0 [.fail 5]).u.error = 5 ∧
    (fio_spliceio_queue sd_fresh sync_req 0 [.ok 0]).u.error = 0 := by
  have h := C9_sync_passthrough sd_fresh sync_req 0 rfl
  obtain ⟨a1, -, -, -, -, -, -, a8, -⟩ := h.2 (.fail 5) []
  obtain ⟨-, -, -, -, -, -, -, -, b9⟩ := h.2 (.ok 0) []
  exact ⟨rfl, a1, (a8 5 rfl (by decide)).1, (b9 0 rfl rfl).1⟩

/-- C7 (amended) at a concrete input: a successful 3-byte zero-copy read. -/
theorem C7_witness :
    (read_req 3).unmap = none ∧
    (fio_spliceio_queue sd_fresh (read_req 3) 0 [.ok 2, .ok 1, .ok 1, .ok 1, .ok 1]).u.xfer_buf
      ≠ 0 ∧
    first_accepted
      (fio_spliceio_queue sd_fresh (read_req 3) 0 [.ok 2, .ok 1, .ok 1, .ok 1, .ok 1]).trace
      = some
        (fio_spliceio_queue sd_fresh (read_req 3) 0 [.ok 2, .ok 1, .ok 1, .ok 1, .ok 1]).u.xfer_buf ∧
    (fio_spliceio_queue sd_fresh (read_req 3) 0 [.ok 2, .ok 1, .ok 1, .ok 1, .ok 1]).u.xfer_buf
      = (read_req 3).xfer_buf :=
  ⟨rfl, (C7_marker_follows_path sd_fresh (read_req 3) 0 [.ok 2, .ok 1, .ok 1, .ok 1, .ok 1]
      rfl).2.2.1 (by decide) (by decide) (by decide) (by decide)⟩

/-- C10 (amended) at a concrete input: a 3-byte read with partial counts. -/
theorem C10_witness :
    (fio_splice_read sd_fresh (read_req 3) 0
      [.ok 2, .ok 1, .ok 1, .ok 1, .ok 1, .fail 5]).trace.all Event.well_behaved = true ∧
    (fio_splice_read sd_fresh (read_req 3) 0
      [.ok 2, .ok 1, .ok 1, .ok 1, .ok 1, .fail 5]).trace.length ≤ 2 * 3 ∧
    (fio_splice_read sd_fresh (read_req 3) 0
      [.ok 2, .ok 1, .ok 1, .ok 1, .ok 1, .fail 5]).ret = some 3 ∧
    tiles 4096 (accepted (fio_splice_read sd_fresh (read_req 3) 0
      [.ok 2, .ok 1, .ok 1, .ok 1, .ok 1, .fail 5]).trace) (4096 + 3) = true := by
  have h := C10_zero_copy_read_progress sd_fresh (read_req 3) 0
    [.ok 2, .ok 1, .ok 1, .ok 1, .ok 1, .fail 5] (by decide) (by decide)
  have h2 := h.2 (by decide)
  exact ⟨by decide, h.1, h2.1, h2.2.2.2.2⟩

end Splice
